import Mathlib

/-!
Shallow embedding of the route recalculation and impact-analysis engine of
the bluecity-viz backend: `app/services/graph_service.py`,
`app/services/graph_helpers.py`, `app/services/impact_calculator.py`,
`app/services/co2_calculator.py` and `app/models/route.py`.

Conventions of the embedding:
* the machine floats of the source are modelled as exact rationals;
* the external shortest-path primitive (`ox.routing.shortest_path`) is an
  opaque oracle parameter returning an optional node sequence per OD pair,
  as the specification treats it;
* a networkx `MultiDiGraph` is modelled as an insertion-ordered list of
  directed edges with attributes; attribute lookups take the first matching
  entry, which plays the role of parallel-edge key 0 in the source, and
  `remove_edge` removes a single matching entry;
* node elevation attributes are an association list; a node without an
  `elevation` attribute is simply absent from it.
-/

/-- Edge attribute record: `length` in meters and `travel_time` in seconds,
the two networkx edge attributes the core reads. -/
structure EdgeData where
  length : ℚ
  travel_time : ℚ
deriving DecidableEq

/-- Directed multigraph with node elevations, modelling the loaded osmnx
graph. -/
structure Graph where
  edges : List (Int × Int × EdgeData)
  elevations : List (Int × ℚ)
deriving DecidableEq

/-- Predicate selecting the edge entries from `u` to `v`. -/
def edge_matches (u v : Int) (e : Int × Int × EdgeData) : Bool :=
  e.1 = u && e.2.1 = v

/-- Embeds `get_edge_data` of `graph_helpers.py` and the key-0 access of
`_calculate_route_metrics`: the first parallel edge from `u` to `v`, if any. -/
def get_edge_data (g : Graph) (u v : Int) : Option EdgeData :=
  (g.edges.find? (edge_matches u v)).map (fun e => e.2.2)

/-- Embeds `G.has_edge(u, v)`. -/
def has_edge (g : Graph) (u v : Int) : Bool :=
  g.edges.any (edge_matches u v)

/-- Embeds `G.remove_edge(u, v)` on a multigraph: one matching entry is
removed (the model removes the first one). -/
def remove_edge (g : Graph) (u v : Int) : Graph :=
  { g with edges := g.edges.eraseP (edge_matches u v) }

/-- Replaces the first list entry satisfying `p` by its image under `f`. -/
def update_first {α : Type} (p : α → Bool) (f : α → α) : List α → List α
  | [] => []
  | a :: t => if p a then f a :: t else a :: update_first p f t

/-- Sets the `travel_time` attribute of the first edge entry from `u` to
`v`, modelling a `set_edge_attribute` call on the key-0 parallel edge. -/
def set_edge_travel_time (g : Graph) (u v : Int) (t : ℚ) : Graph :=
  { g with
    edges := update_first (edge_matches u v)
      (fun e => (e.1, e.2.1, { e.2.2 with travel_time := t })) g.edges }

/-- Positive elevation difference from `u` to `v` when both nodes carry an
elevation attribute, else 0; this is the uphill-only edge elevation gain of
`_calculate_route_metrics` (lines 262-267). -/
def edge_elevation_gain (g : Graph) (u v : Int) : ℚ :=
  match g.elevations.lookup u, g.elevations.lookup v with
  | some eu, some ev => if 0 < ev - eu then ev - eu else 0
  | _, _ => 0

/-- Edge speed in km/h derived from length and travel time when both are
positive, else absent (lines 270-272 of `graph_service.py`). -/
def edge_speed_kph (d : EdgeData) : Option ℚ :=
  if 0 < d.travel_time ∧ 0 < d.length then
    some ((d.length / 1000) / (d.travel_time / 3600))
  else none

/-- Origin-destination pair (`NodePair` of `models/route.py`). -/
structure NodePair where
  origin : Int
  destination : Int
deriving DecidableEq

/-- Plain graph edge (`Edge` of `models/route.py`). -/
structure Edge where
  u : Int
  v : Int
deriving DecidableEq

/-- Edge modification request (`EdgeModification` of `models/route.py`). -/
structure EdgeModification where
  u : Int
  v : Int
  action : String
  speed_kph : Option ℚ
deriving DecidableEq

/-- Calculated route (`Route` of `models/route.py`). A route for which no
path was found is not represented: the source drops it from every list. -/
structure Route where
  origin : Int
  destination : Int
  path : List Int
  travel_time : Option ℚ
  distance : Option ℚ
  elevation_gain : Option ℚ
  co2_emissions : Option ℚ
deriving DecidableEq

/-- Edge usage statistics entry (`EdgeUsageStats` of `models/route.py`). -/
structure EdgeUsageStats where
  u : Int
  v : Int
  count : Nat
  frequency : ℚ
  delta_count : Option Int
  delta_frequency : Option ℚ
  co2_per_use : Option ℚ
deriving DecidableEq

/-- Aggregate impact record (`ImpactStatistics` of `models/route.py`). -/
structure ImpactStatistics where
  total_routes : Nat
  affected_routes : Nat
  failed_routes : Nat
  total_distance_increase_km : ℚ
  total_time_increase_minutes : ℚ
  avg_distance_increase_km : ℚ
  avg_time_increase_minutes : ℚ
  max_distance_increase_km : ℚ
  max_time_increase_minutes : ℚ
  avg_distance_increase_percent : ℚ
  avg_time_increase_percent : ℚ
  total_co2_increase_grams : ℚ
  avg_co2_increase_grams : ℚ
  max_co2_increase_grams : ℚ
  avg_co2_increase_percent : ℚ
deriving DecidableEq

/-- Per-edge data collected for the CO2 computation (the dictionaries in
`edges_data` of `_calculate_route_metrics`). -/
structure EdgeInfo where
  travel_time : ℚ
  speed_kph : Option ℚ
  elevation_gain : ℚ
deriving DecidableEq

/-- Embeds `CO2Calculator.calculate_edge_co2`: base rate 2.5 g/s, speed
deviation penalty 0.015 per km/h away from 60, elevation penalty 0.08 g per
meter of gain per second. -/
def calculate_edge_co2 (travel_time : ℚ) (speed_kph : Option ℚ)
    (elevation_gain : Option ℚ) : ℚ :=
  if travel_time ≤ 0 then 0
  else
    let co2 := 5 / 2 * travel_time
    let co2 :=
      match speed_kph with
      | some s => if 0 < s then co2 * (1 + |s - 60| * (15 / 1000)) else co2
      | none => co2
    match elevation_gain with
    | some e => if 0 < e then co2 + e * (8 / 100) * travel_time else co2
    | none => co2

/-- Embeds `CO2Calculator.calculate_route_co2`: sum of per-edge emissions. -/
def calculate_route_co2 (edges_data : List EdgeInfo) : ℚ :=
  edges_data.foldl
    (fun acc e => acc + calculate_edge_co2 e.travel_time e.speed_kph (some e.elevation_gain)) 0

/-- Consecutive node pairs of a path, the iteration
`for i in range(len(path) - 1)` over `(path[i], path[i+1])`. -/
def consecPairs : List Int → List (Int × Int)
  | a :: b :: rest => (a, b) :: consecPairs (b :: rest)
  | _ => []

/-- Accumulator of the metric summation loop of
`_calculate_route_metrics`. -/
structure MetricsAcc where
  tt : ℚ
  dist : ℚ
  gain : ℚ
  infos : List EdgeInfo
deriving DecidableEq

/-- One iteration of the metric summation loop (lines 240-281 of
`graph_service.py`): a consecutive pair with no edge data is skipped,
otherwise travel time, length, uphill elevation gain and the per-edge CO2
inputs are accumulated. -/
def metrics_step (g : Graph) (acc : MetricsAcc) (e : Int × Int) : MetricsAcc :=
  match get_edge_data g e.1 e.2 with
  | none => acc
  | some d =>
    let eg := edge_elevation_gain g e.1 e.2
    { tt := acc.tt + d.travel_time
      dist := acc.dist + d.length
      gain := acc.gain + eg
      infos := acc.infos ++
        [{ travel_time := d.travel_time, speed_kph := edge_speed_kph d, elevation_gain := eg }] }

/-- Result record of `_calculate_route_metrics`. -/
structure RouteMetrics where
  travel_time : Option ℚ
  distance : Option ℚ
  elevation_gain : Option ℚ
  edges_data : List EdgeInfo
deriving DecidableEq

/-- Embeds `_calculate_route_metrics` of `graph_service.py` (equivalently
`calculate_route_metrics` of `graph_helpers.py`): all metrics are absent for
a path of fewer than two nodes, otherwise the sums over the existing edges,
with the total elevation gain reported only when positive. -/
def calculate_route_metrics (g : Graph) (path : List Int) : RouteMetrics :=
  if path.length < 2 then
    { travel_time := none, distance := none, elevation_gain := none, edges_data := [] }
  else
    let r := (consecPairs path).foldl (metrics_step g) ⟨0, 0, 0, []⟩
    { travel_time := some r.tt
      distance := some r.dist
      elevation_gain := if 0 < r.gain then some r.gain else none
      edges_data := r.infos }

/-- The shortest-path oracle: the external PathFinder collaborator, opaque
to the core, returning an optional node sequence for an OD pair. -/
abbrev PathFinder := Graph → NodePair → Option (List Int)

/-- Builds the `Route` object of `calculate_routes` (lines 451-465 of
`graph_service.py`) for a pair whose path was found. -/
def build_route (g : Graph) (p : NodePair) (path : List Int) : Route :=
  let m := calculate_route_metrics g path
  { origin := p.origin
    destination := p.destination
    path := path
    travel_time := m.travel_time
    distance := m.distance
    elevation_gain := m.elevation_gain
    co2_emissions := some (calculate_route_co2 m.edges_data) }

/-- Optional route for one pair: absent when the oracle finds no path. -/
def route_for (pf : PathFinder) (g : Graph) (p : NodePair) : Option Route :=
  (pf g p).map (build_route g p)

/-- Embeds `calculate_routes`: one shortest-path query per pair, pairs with
no path are dropped from the output list (lines 444-476). -/
def calculate_routes (pf : PathFinder) (g : Graph) (pairs : List NodePair) : List Route :=
  pairs.filterMap (route_for pf g)

/-- Process-wide cache state of `GraphService`: `route_cache` keyed by the
ordered pair tuples, plus the last-used key `pairs_cache`. The python dict
assignment is modelled by consing, with lookups taking the first match. -/
structure ServiceState where
  route_cache : List (List (Int × Int) × List Route)
  pairs_cache : Option (List (Int × Int))
deriving DecidableEq

/-- Cache key of a pair sequence: `tuple((p.origin, p.destination) for p in pairs)`. -/
def pairs_key_of (pairs : List NodePair) : List (Int × Int) :=
  pairs.map (fun p => (p.origin, p.destination))

/-- Embeds the baseline-route caching step of `recalculate_with_removed_edges`
(lines 503-519): recompute when the last key differs or the key is missing
from the store, else serve the cached list. The returned flag records
whether a PathFinder batch computation was triggered. -/
def get_or_compute (pf : PathFinder) (g : Graph) (st : ServiceState)
    (pairs : List NodePair) : List Route × ServiceState × Bool :=
  let key := pairs_key_of pairs
  if st.pairs_cache = some key then
    match st.route_cache.lookup key with
    | some routes => (routes, st, false)
    | none =>
      let routes := calculate_routes pf g pairs
      (routes, ⟨(key, routes) :: st.route_cache, some key⟩, true)
  else
    let routes := calculate_routes pf g pairs
    (routes, ⟨(key, routes) :: st.route_cache, some key⟩, true)

/-- Increment of the edge counting dictionary, preserving insertion order as
a python dict does. -/
def bump_edge (counts : List ((Int × Int) × Nat)) (k : Int × Int) :
    List ((Int × Int) × Nat) :=
  if counts.any (fun e => e.1 = k) then
    counts.map (fun e => if e.1 = k then (e.1, e.2 + 1) else e)
  else counts ++ [(k, 1)]

/-- Embeds the edge usage counting loop shared by
`_calculate_edge_usage_stats` (lines 299-304) and `count_edge_usage` of
`graph_helpers.py`. -/
def count_edge_usage (routes : List Route) : List ((Int × Int) × Nat) :=
  routes.foldl (fun c r => (consecPairs r.path).foldl bump_edge c) []

/-- Stored original statistics passed to the delta computation: a mapping
from an edge key to its original count and frequency. -/
abbrev OrigStats := List ((Int × Int) × Nat × ℚ)

/-- Embeds the delta branch of `_calculate_edge_usage_stats` (lines
311-322). The python code tests the dictionary for truthiness, so a
supplied but empty dictionary behaves like an absent one. -/
def usage_stat_deltas (original_stats : Option OrigStats) (k : Int × Int)
    (count : Nat) (frequency : ℚ) : Option Int × Option ℚ :=
  match original_stats with
  | none => (none, none)
  | some os =>
    if os.isEmpty then (none, none)
    else
      match os.lookup k with
      | some (oc, ofr) => (some ((count : Int) - (oc : Int)), some (frequency - ofr))
      | none => (some (count : Int), some frequency)

/-- Embeds the per-edge CO2 annotation of `_calculate_edge_usage_stats`
(lines 324-355): absent when the edge is missing from the graph. -/
def edge_co2_per_use (g : Graph) (u v : Int) : Option ℚ :=
  match get_edge_data g u v with
  | none => none
  | some d =>
    some (calculate_edge_co2 d.travel_time (edge_speed_kph d)
      (some (edge_elevation_gain g u v)))

/-- Embeds `_calculate_edge_usage_stats` of `graph_service.py`: count the
edge traversals, attach frequency, deltas and CO2 per use, then sort by
frequency descending. The python stable sort is modelled by a stable
insertion sort under the same descending key order. -/
def calculate_edge_usage_stats (g : Graph) (routes : List Route)
    (total_routes : Nat) (original_stats : Option OrigStats) : List EdgeUsageStats :=
  let counts := count_edge_usage routes
  let stats := counts.map (fun kc =>
    let frequency : ℚ := if 0 < total_routes then (kc.2 : ℚ) / (total_routes : ℚ) else 0
    let d := usage_stat_deltas original_stats kc.1 kc.2 frequency
    { u := kc.1.1
      v := kc.1.2
      count := kc.2
      frequency := frequency
      delta_count := d.1
      delta_frequency := d.2
      co2_per_use := edge_co2_per_use g kc.1.1 kc.1.2 : EdgeUsageStats })
  stats.insertionSort (fun a b => b.frequency ≤ a.frequency)

/-- Fallback route object for an index lookup; the source never actually
reads it because every looked-up index is in bounds. -/
def default_route : Route :=
  { origin := 0, destination := 0, path := [], travel_time := none,
    distance := none, elevation_gain := none, co2_emissions := none }

/-- Fallback pair object, likewise never actually read. -/
def default_pair : NodePair := { origin := 0, destination := 0 }

/-- Does a path traverse a modified edge: some consecutive node pair of the
path belongs to the modified-edge key set? -/
def route_touches (m : List (Int × Int)) (path : List Int) : Bool :=
  (consecPairs path).any (fun e => decide (e ∈ m))

/-- Index scan of the partition loop: `for i, route in
enumerate(original_routes)` appending `i` when the path of the route
traverses a modified edge, starting at index `i0`. -/
def find_affected_from (m : List (Int × Int)) : Nat → List Route → List Nat
  | _, [] => []
  | i0, r :: rest =>
    if route_touches m r.path then i0 :: find_affected_from m (i0 + 1) rest
    else find_affected_from m (i0 + 1) rest

/-- Embeds the affected-route partition of `recalculate_with_removed_edges`
(lines 525-534), equivalently `find_affected_routes` of
`impact_calculator.py`: the indices of the baseline routes whose path
traverses a modified edge. -/
def find_affected_routes (routes : List Route) (m : List (Int × Int)) : List Nat :=
  find_affected_from m 0 routes

/-- Embeds the removal loop of `recalculate_with_removed_edges` (lines
545-549): each listed edge existing in the working copy is removed and
recorded in the applied list. -/
def apply_removals (g : Graph) (es : List Edge) : Graph × List Edge :=
  es.foldl
    (fun acc e =>
      if has_edge acc.1 e.u e.v then (remove_edge acc.1 e.u e.v, acc.2 ++ [e])
      else acc)
    (g, [])

/-- Accumulator of the impact aggregation loop of
`recalculate_with_removed_edges` (lines 574-585). -/
structure ImpactAcc where
  affected : Nat
  failed : Nat
  dist_inc : ℚ
  time_inc : ℚ
  co2_inc : ℚ
  max_dist : ℚ
  max_time : ℚ
  max_co2 : ℚ
  dist_pcts : List ℚ
  time_pcts : List ℚ
  co2_pcts : List ℚ
deriving DecidableEq

/-- Initial impact accumulator: all counters and aggregates zero. -/
def init_acc : ImpactAcc := ⟨0, 0, 0, 0, 0, 0, 0, 0, [], [], []⟩

/-- Distance block of the comparison loop (lines 632-641): the delta counts
toward the aggregates only when nonnegative, the percent sample only when
the original distance is positive; the flag reports whether the route was
marked affected by this block. -/
def dist_update (orig newr : Route) (acc : ImpactAcc) : Bool × ImpactAcc :=
  match orig.distance, newr.distance with
  | some od, some nd =>
    let d := nd - od
    if 0 ≤ d then
      (true,
        { acc with
          dist_inc := acc.dist_inc + d
          max_dist := max acc.max_dist d
          dist_pcts := if 0 < od then acc.dist_pcts ++ [d / od * 100] else acc.dist_pcts })
    else (false, acc)
  | _, _ => (false, acc)

/-- Time block of the comparison loop (lines 643-653), same policy as the
distance block. -/
def time_update (orig newr : Route) (acc : ImpactAcc) : Bool × ImpactAcc :=
  match orig.travel_time, newr.travel_time with
  | some ot, some nt =>
    let d := nt - ot
    if 0 ≤ d then
      (true,
        { acc with
          time_inc := acc.time_inc + d
          max_time := max acc.max_time d
          time_pcts := if 0 < ot then acc.time_pcts ++ [d / ot * 100] else acc.time_pcts })
    else (false, acc)
  | _, _ => (false, acc)

/-- CO2 block of the comparison loop (lines 655-664): same nonnegativity
policy, but it does not mark the route affected. -/
def co2_update (orig newr : Route) (acc : ImpactAcc) : ImpactAcc :=
  match orig.co2_emissions, newr.co2_emissions with
  | some oc, some nc =>
    let d := nc - oc
    if 0 ≤ d then
      { acc with
        co2_inc := acc.co2_inc + d
        max_co2 := max acc.max_co2 d
        co2_pcts := if 0 < oc then acc.co2_pcts ++ [d / oc * 100] else acc.co2_pcts }
    else acc
  | _, _ => acc

/-- One iteration of the comparison loop (lines 598-682) for an affected
index: a missing or empty recomputed path counts as failed, otherwise the
three metric blocks run and the route is counted affected when the distance
or the time block said so. -/
def impact_step (original_routes : List Route) (new_map : List (Nat × Route))
    (acc : ImpactAcc) (orig_idx : Nat) : ImpactAcc :=
  let orig := original_routes.getD orig_idx default_route
  match new_map.lookup orig_idx with
  | none => { acc with failed := acc.failed + 1 }
  | some newr =>
    if newr.path.length = 0 then { acc with failed := acc.failed + 1 }
    else
      let r1 := dist_update orig newr acc
      let r2 := time_update orig newr r1.2
      let acc3 := co2_update orig newr r2.2
      if r1.1 || r2.1 then { acc3 with affected := acc3.affected + 1 } else acc3

/-- The full impact aggregation over the affected indices. -/
def compute_impact (original_routes : List Route) (new_map : List (Nat × Route))
    (affected : List Nat) : ImpactAcc :=
  affected.foldl (impact_step original_routes new_map) init_acc

/-- Average of a sample list, 0 when the sample is empty (the guarded
averages of lines 698-712). -/
def avg_list (l : List ℚ) : ℚ :=
  if l.isEmpty then 0 else l.sum / (l.length : ℚ)

/-- Embeds the `ImpactStatistics` construction (lines 684-730): unit
conversions on totals and maxima, averages guarded against an empty
denominator. -/
def mk_impact_stats (total_routes : Nat) (acc : ImpactAcc) : ImpactStatistics :=
  { total_routes := total_routes
    affected_routes := acc.affected
    failed_routes := acc.failed
    total_distance_increase_km := acc.dist_inc / 1000
    total_time_increase_minutes := acc.time_inc / 60
    avg_distance_increase_km :=
      if 0 < acc.affected then acc.dist_inc / 1000 / (acc.affected : ℚ) else 0
    avg_time_increase_minutes :=
      if 0 < acc.affected then acc.time_inc / 60 / (acc.affected : ℚ) else 0
    max_distance_increase_km := acc.max_dist / 1000
    max_time_increase_minutes := acc.max_time / 60
    avg_distance_increase_percent := avg_list acc.dist_pcts
    avg_time_increase_percent := avg_list acc.time_pcts
    total_co2_increase_grams := acc.co2_inc
    avg_co2_increase_grams :=
      if 0 < acc.affected then acc.co2_inc / (acc.affected : ℚ) else 0
    max_co2_increase_grams := acc.max_co2
    avg_co2_increase_percent := avg_list acc.co2_pcts }

/-- Positional merge of the recomputed routes into the baseline list
(lines 732-736): `complete_new_routes = list(original_routes)` then
assignment at each recomputed index. -/
def apply_route_updates (routes : List Route) (updates : List (Nat × Route)) : List Route :=
  updates.foldl (fun acc ir => acc.set ir.1 ir.2) routes

/-- Response record of `recalculate_with_removed_edges`
(`RecalculateResponse` construction at lines 780-786; the source passes the
applied removals under the keyword `removed_edges`). -/
structure RecalculateResponse where
  removed_edges : List Edge
  original_edge_usage : List EdgeUsageStats
  new_edge_usage : List EdgeUsageStats
  impact_statistics : ImpactStatistics
  routes : List Route
deriving DecidableEq

/-- Embeds `recalculate_with_removed_edges` of `graph_service.py` end to
end: cached baseline resolution, affected partition, removal on a working
copy, selective recomputation, impact aggregation over the affected
indices, positional merge, and the two edge-usage lists with
`total_routes = len(pairs)` as denominator; the CO2 annotations are read
from the restored original graph. -/
def recalculate (pf : PathFinder) (g : Graph) (st : ServiceState)
    (pairs : List NodePair) (edges_to_remove : List Edge) :
    RecalculateResponse × ServiceState :=
  let goc := get_or_compute pf g st pairs
  let original_routes := goc.1
  let removed_edges_set := edges_to_remove.map (fun e => (e.u, e.v))
  let affected := find_affected_routes original_routes removed_edges_set
  let pairs_to_recalculate := affected.map (fun i => pairs.getD i default_pair)
  let gr := apply_removals g edges_to_remove
  let new_routes := calculate_routes pf gr.1 pairs_to_recalculate
  let new_map := affected.zip new_routes
  let acc := compute_impact original_routes new_map affected
  let impact_stats := mk_impact_stats pairs.length acc
  let complete_new_routes := apply_route_updates original_routes new_map
  let original_edge_usage := calculate_edge_usage_stats g original_routes pairs.length none
  let original_stats_dict : OrigStats :=
    original_edge_usage.map (fun s => ((s.u, s.v), (s.count, s.frequency)))
  let new_edge_usage :=
    calculate_edge_usage_stats g complete_new_routes pairs.length (some original_stats_dict)
  ({ removed_edges := gr.2
     original_edge_usage := original_edge_usage
     new_edge_usage := new_edge_usage
     impact_statistics := impact_stats
     routes := complete_new_routes }, goc.2.1)

/-- Modelled from the spec: the application of a single `EdgeModification`
to the working network copy is absent from the sources (only the
`EdgeModification` model and the API caller appear). Per the specification,
`remove` deletes the edge, `modify` requires `speed_kph` and recomputes the
edge `travel_time = (length_m/1000) / (speed_kph/3600)` seconds leaving
`length` unchanged, and a modification whose edge is absent from the
network, or a `modify` lacking `speed_kph`, is skipped and reported
unapplied. -/
def apply_modification (g : Graph) (m : EdgeModification) : Graph × Bool :=
  if m.action = "modify" then
    match m.speed_kph, get_edge_data g m.u m.v with
    | some s, some d =>
      (set_edge_travel_time g m.u m.v ((d.length / 1000) / (s / 3600)), true)
    | _, _ => (g, false)
  else if m.action = "remove" then
    if has_edge g m.u m.v then (remove_edge g m.u m.v, true) else (g, false)
  else (g, false)

/-- Empty test network. -/
def g_empty : Graph := ⟨[], []⟩

/-- Test network with the single edge 1→2 of length 100 m and travel time
10 s. -/
def g_single : Graph := ⟨[(1, 2, ⟨100, 10⟩)], []⟩

/-- Test network of the concrete specification scenarios: edges 1→2 and 2→3
(100 m, 10 s each) and the direct edge 1→3 (500 m, 50 s). -/
def g_tri : Graph := ⟨[(1, 2, ⟨100, 10⟩), (2, 3, ⟨100, 10⟩), (1, 3, ⟨500, 50⟩)], []⟩

/-- Table oracle: knows only the path [1, 2] for the pair (1, 2). -/
def pf_single : PathFinder := fun _ p =>
  if p.origin = 1 ∧ p.destination = 2 then some [1, 2] else none

/-- Graph-sensitive oracle for `g_tri`: routes 1→3 through node 2 while the
edge 2→3 is present, directly otherwise. -/
def pf_tri : PathFinder := fun g p =>
  if p.origin = 1 ∧ p.destination = 3 then
    (if has_edge g 2 3 then some [1, 2, 3] else some [1, 3])
  else none

/-- Fresh service state: empty cache, no current key. -/
def st_init : ServiceState := ⟨[], none⟩

/-- Route fixture with path [1, 2] used by the usage-statistics claims. -/
def r12 : Route :=
  { origin := 1, destination := 2, path := [1, 2], travel_time := some 0,
    distance := some 0, elevation_gain := none, co2_emissions := some 0 }

/-- Nonempty prior-stats fixture naming an edge unrelated to the fixtures
above. -/
def os_fix : OrigStats := [((9, 9), (1, (1 : ℚ)))]

/-- Usage stat produced for the edge (1, 2) of `r12` against `os_fix`. -/
def stat_fix : EdgeUsageStats :=
  { u := 1, v := 2, count := 1, frequency := 1, delta_count := some 1,
    delta_frequency := some 1, co2_per_use := none }

/-- Usage stat produced for the edge (1, 2) when one of two requested pairs
has no route. -/
def stat_half : EdgeUsageStats :=
  { u := 1, v := 2, count := 1, frequency := 1 / 2, delta_count := none,
    delta_frequency := none, co2_per_use := none }

/-- Nonnegativity of every total and maximum field of an impact
accumulator. -/
def acc_nonneg (acc : ImpactAcc) : Prop :=
  0 ≤ acc.dist_inc ∧ 0 ≤ acc.time_inc ∧ 0 ≤ acc.co2_inc ∧
  0 ≤ acc.max_dist ∧ 0 ≤ acc.max_time ∧ 0 ≤ acc.max_co2

/- The rational arithmetic operations are sealed by Batteries for
elaboration performance; reopening them lets concrete witness computations
go through kernel reduction. -/
unseal Rat.add Rat.mul Rat.inv Rat.sub

/-- Projection of `recalculate` to its returned route list. -/
theorem recalculate_routes_def (pf : PathFinder) (g : Graph) (st : ServiceState)
    (pairs : List NodePair) (es : List Edge) :
    (recalculate pf g st pairs es).1.routes =
      apply_route_updates (get_or_compute pf g st pairs).1
        ((find_affected_routes (get_or_compute pf g st pairs).1
            (es.map fun e => (e.u, e.v))).zip
          (calculate_routes pf (apply_removals g es).1
            ((find_affected_routes (get_or_compute pf g st pairs).1
                (es.map fun e => (e.u, e.v))).map
              (fun i => pairs.getD i default_pair)))) := rfl

/-- Projection of `recalculate` to its impact statistics. -/
theorem recalculate_impact_def (pf : PathFinder) (g : Graph) (st : ServiceState)
    (pairs : List NodePair) (es : List Edge) :
    (recalculate pf g st pairs es).1.impact_statistics =
      mk_impact_stats pairs.length
        (compute_impact (get_or_compute pf g st pairs).1
          ((find_affected_routes (get_or_compute pf g st pairs).1
              (es.map fun e => (e.u, e.v))).zip
            (calculate_routes pf (apply_removals g es).1
              ((find_affected_routes (get_or_compute pf g st pairs).1
                  (es.map fun e => (e.u, e.v))).map
                (fun i => pairs.getD i default_pair))))
          (find_affected_routes (get_or_compute pf g st pairs).1
            (es.map fun e => (e.u, e.v)))) := rfl

/-- Projection of `recalculate` to its original edge usage list. -/
theorem recalculate_orig_usage_def (pf : PathFinder) (g : Graph) (st : ServiceState)
    (pairs : List NodePair) (es : List Edge) :
    (recalculate pf g st pairs es).1.original_edge_usage =
      calculate_edge_usage_stats g (get_or_compute pf g st pairs).1 pairs.length none := rfl

/-- Projection of `recalculate` to its new edge usage list. -/
theorem recalculate_new_usage_def (pf : PathFinder) (g : Graph) (st : ServiceState)
    (pairs : List NodePair) (es : List Edge) :
    (recalculate pf g st pairs es).1.new_edge_usage =
      calculate_edge_usage_stats g
        (apply_route_updates (get_or_compute pf g st pairs).1
          ((find_affected_routes (get_or_compute pf g st pairs).1
              (es.map fun e => (e.u, e.v))).zip
            (calculate_routes pf (apply_removals g es).1
              ((find_affected_routes (get_or_compute pf g st pairs).1
                  (es.map fun e => (e.u, e.v))).map
                (fun i => pairs.getD i default_pair)))))
        pairs.length
        (some ((calculate_edge_usage_stats g (get_or_compute pf g st pairs).1
            pairs.length none).map
          (fun s => ((s.u, s.v), (s.count, s.frequency))))) := rfl

/-- C8: calling the cached baseline-route computation twice in succession
with the identical ordered pair sequence, starting from a fresh cache,
returns identical route lists and identical states, and triggers exactly one
underlying PathFinder batch computation: the first call computes, the second
is served from the cache. -/
theorem c8_cache_idempotent (pf : PathFinder) (g : Graph) (pairs : List NodePair) :
    (get_or_compute pf g (get_or_compute pf g st_init pairs).2.1 pairs).1 =
      (get_or_compute pf g st_init pairs).1 ∧
    (get_or_compute pf g st_init pairs).2.2 = true ∧
    (get_or_compute pf g (get_or_compute pf g st_init pairs).2.1 pairs).2.2 = false ∧
    (get_or_compute pf g (get_or_compute pf g st_init pairs).2.1 pairs).2.1 =
      (get_or_compute pf g st_init pairs).2.1 := by
  simp [get_or_compute, st_init, List.lookup]

/-- Search after an in-place update of the first matching list entry: the
update lands on the found entry. -/
theorem find_update_first (u v : Int) (t : ℚ) (l : List (Int × Int × EdgeData)) :
    (update_first (edge_matches u v)
        (fun e => (e.1, e.2.1, { e.2.2 with travel_time := t })) l).find?
        (edge_matches u v) =
      (l.find? (edge_matches u v)).map
        (fun e => (e.1, e.2.1, { e.2.2 with travel_time := t })) := by
  induction l with
  | nil => rfl
  | cons e rest ih =>
    by_cases he : edge_matches u v e
    · have hfe : edge_matches u v (e.1, e.2.1, { e.2.2 with travel_time := t }) = true := by
        unfold edge_matches at he ⊢
        simpa using he
      simp [update_first, he, List.find?_cons_of_pos, hfe]
    · simp [update_first, he, List.find?_cons_of_neg, ih]

/-- Lookup after an in-place update of the first matching edge entry: the
attribute map is applied to the looked-up record. -/
theorem get_edge_data_set_travel_time (g : Graph) (u v : Int) (t : ℚ) :
    get_edge_data (set_edge_travel_time g u v t) u v =
      (get_edge_data g u v).map (fun d => { d with travel_time := t }) := by
  unfold get_edge_data set_edge_travel_time
  rw [find_update_first]
  cases g.edges.find? (edge_matches u v) <;> rfl

/-- C4: applying an edge modification with action modify and a given
speed_kph to an edge that exists in the working network copy sets that edge
travel_time to (length_m/1000) / (speed_kph/3600) seconds, leaves its
length unchanged, and reports the modification applied. The applying code
is modelled from the spec as `apply_modification`. -/
theorem c4_modify_sets_travel_time (g : Graph) (m : EdgeModification) (s : ℚ) (d : EdgeData)
    (ha : m.action = "modify") (hs : m.speed_kph = some s)
    (hd : get_edge_data g m.u m.v = some d) :
    get_edge_data (apply_modification g m).1 m.u m.v =
      some { length := d.length, travel_time := (d.length / 1000) / (s / 3600) } ∧
    (apply_modification g m).2 = true := by
  unfold apply_modification
  rw [ha, hs, hd]
  simp [get_edge_data_set_travel_time, hd]

/-- Witness for C4 at the concrete scenario-B input: halving the speed of
the 100 m edge from 36 km/h to 18 km/h yields a 20 s travel time. -/
theorem c4_modify_sets_travel_time_witness :
    get_edge_data (apply_modification g_single ⟨1, 2, "modify", some 18⟩).1 1 2 =
      some { length := 100, travel_time := (100 / 1000) / (18 / 3600) } ∧
    (apply_modification g_single ⟨1, 2, "modify", some 18⟩).2 = true :=
  c4_modify_sets_travel_time g_single ⟨1, 2, "modify", some 18⟩ 18 ⟨100, 10⟩
    (by decide) (by decide) (by decide)

/-- Folding a function that ignores the elements rejected by `p` visits only
the accepted ones. -/
theorem foldl_eq_foldl_filter {α β : Type} (f : β → α → β) (p : α → Bool)
    (hf : ∀ acc a, p a = false → f acc a = acc) :
    ∀ (l : List α) (i : β), l.foldl f i = (l.filter p).foldl f i := by
  intro l
  induction l with
  | nil => intro i; rfl
  | cons a t ih =>
    intro i
    cases hp : p a
    · rw [List.foldl_cons, hf i a hp, List.filter_cons, hp]
      exact ih i
    · rw [List.foldl_cons, List.filter_cons, hp]
      simpa using ih (f i a)

/-- A consecutive pair without edge data is skipped by the metric loop. -/
theorem metrics_step_skip (g : Graph) (acc : MetricsAcc) (e : Int × Int)
    (h : (get_edge_data g e.1 e.2).isSome = false) : metrics_step g acc e = acc := by
  cases hg : get_edge_data g e.1 e.2 with
  | none => simp [metrics_step, hg]
  | some d => rw [hg] at h; simp at h

/-- C10: route metric computation is total on arbitrary node sequences: on
a path of length at least 2, a consecutive node pair with no edge in the
graph contributes zero to travel_time and distance and is omitted from the
per-edge CO2 data, so the returned metrics are exactly those of the edges
that do exist, and the travel time and distance are always present. -/
theorem c10_metrics_skip_missing_edges (g : Graph) (path : List Int)
    (h : 2 ≤ path.length) :
    calculate_route_metrics g path =
      (let r := ((consecPairs path).filter
          (fun e => (get_edge_data g e.1 e.2).isSome)).foldl (metrics_step g) ⟨0, 0, 0, []⟩
       { travel_time := some r.tt
         distance := some r.dist
         elevation_gain := if 0 < r.gain then some r.gain else none
         edges_data := r.infos }) ∧
    (calculate_route_metrics g path).travel_time.isSome = true ∧
    (calculate_route_metrics g path).distance.isSome = true := by
  have hlt : ¬ path.length < 2 := by omega
  refine ⟨?_, ?_, ?_⟩
  · show calculate_route_metrics g path = _
    unfold calculate_route_metrics
    rw [if_neg hlt]
    rw [foldl_eq_foldl_filter (metrics_step g)
      (fun e => (get_edge_data g e.1 e.2).isSome)
      (fun acc a ha => metrics_step_skip g acc a ha)]
  · unfold calculate_route_metrics
    rw [if_neg hlt]
    rfl
  · unfold calculate_route_metrics
    rw [if_neg hlt]
    rfl

/-- Witness for C10: on the single-edge network, the path [1, 2, 3] has the
existing edge (1, 2) and the missing edge (2, 3); the metrics are those of
the edge (1, 2) alone. -/
theorem c10_metrics_skip_missing_edges_witness :
    calculate_route_metrics g_single [1, 2, 3] =
      (let r := ((consecPairs [1, 2, 3]).filter
          (fun e => (get_edge_data g_single e.1 e.2).isSome)).foldl
            (metrics_step g_single) ⟨0, 0, 0, []⟩
       { travel_time := some r.tt
         distance := some r.dist
         elevation_gain := if 0 < r.gain then some r.gain else none
         edges_data := r.infos }) ∧
    (calculate_route_metrics g_single [1, 2, 3]).travel_time.isSome = true ∧
    (calculate_route_metrics g_single [1, 2, 3]).distance.isSome = true :=
  c10_metrics_skip_missing_edges g_single [1, 2, 3] (by decide)

/-- The distance block only ever adds a nonnegative delta. -/
theorem dist_update_nonneg (orig newr : Route) (acc : ImpactAcc)
    (h : acc_nonneg acc) : acc_nonneg (dist_update orig newr acc).2 := by
  obtain ⟨h1, h2, h3, h4, h5, h6⟩ := h
  unfold dist_update
  cases orig.distance with
  | none => exact ⟨h1, h2, h3, h4, h5, h6⟩
  | some od =>
    cases newr.distance with
    | none => exact ⟨h1, h2, h3, h4, h5, h6⟩
    | some nd =>
      by_cases hd : (0 : ℚ) ≤ nd - od
      · simp only [hd, if_pos]
        exact ⟨add_nonneg h1 hd, h2, h3, le_trans h4 (le_max_left _ _), h5, h6⟩
      · simp only [hd, if_neg, not_false_iff]
        exact ⟨h1, h2, h3, h4, h5, h6⟩

/-- The time block only ever adds a nonnegative delta. -/
theorem time_update_nonneg (orig newr : Route) (acc : ImpactAcc)
    (h : acc_nonneg acc) : acc_nonneg (time_update orig newr acc).2 := by
  obtain ⟨h1, h2, h3, h4, h5, h6⟩ := h
  unfold time_update
  cases orig.travel_time with
  | none => exact ⟨h1, h2, h3, h4, h5, h6⟩
  | some ot =>
    cases newr.travel_time with
    | none => exact ⟨h1, h2, h3, h4, h5, h6⟩
    | some nt =>
      by_cases hd : (0 : ℚ) ≤ nt - ot
      · simp only [hd, if_pos]
        exact ⟨h1, add_nonneg h2 hd, h3, h4, le_trans h5 (le_max_left _ _), h6⟩
      · simp only [hd, if_neg, not_false_iff]
        exact ⟨h1, h2, h3, h4, h5, h6⟩

/-- The CO2 block only ever adds a nonnegative delta. -/
theorem co2_update_nonneg (orig newr : Route) (acc : ImpactAcc)
    (h : acc_nonneg acc) : acc_nonneg (co2_update orig newr acc) := by
  obtain ⟨h1, h2, h3, h4, h5, h6⟩ := h
  unfold co2_update
  cases orig.co2_emissions with
  | none => exact ⟨h1, h2, h3, h4, h5, h6⟩
  | some oc =>
    cases newr.co2_emissions with
    | none => exact ⟨h1, h2, h3, h4, h5, h6⟩
    | some nc =>
      by_cases hd : (0 : ℚ) ≤ nc - oc
      · simp only [hd, if_pos]
        exact ⟨h1, h2, add_nonneg h3 hd, h4, h5, le_trans h6 (le_max_left _ _)⟩
      · simp only [hd, if_neg, not_false_iff]
        exact ⟨h1, h2, h3, h4, h5, h6⟩

/-- One comparison iteration preserves the nonnegativity invariant. -/
theorem impact_step_nonneg (original_routes : List Route) (new_map : List (Nat × Route))
    (acc : ImpactAcc) (orig_idx : Nat) (h : acc_nonneg acc) :
    acc_nonneg (impact_step original_routes new_map acc orig_idx) := by
  unfold impact_step
  cases new_map.lookup orig_idx with
  | none => exact h
  | some newr =>
    by_cases hp : newr.path.length = 0
    · simp only [hp, if_pos]
      exact h
    · simp only [hp, if_neg, not_false_iff]
      have hacc3 := co2_update_nonneg (original_routes.getD orig_idx default_route) newr _
        (time_update_nonneg (original_routes.getD orig_idx default_route) newr _
          (dist_update_nonneg (original_routes.getD orig_idx default_route) newr acc h))
      by_cases hb :
          (dist_update (original_routes.getD orig_idx default_route) newr acc).1 = true ∨
          (time_update (original_routes.getD orig_idx default_route) newr
            (dist_update (original_routes.getD orig_idx default_route) newr acc).2).1 = true
      · obtain ⟨g1, g2, g3, g4, g5, g6⟩ := hacc3
        simp only [Bool.or_eq_true]
        rw [if_pos hb]
        exact ⟨g1, g2, g3, g4, g5, g6⟩
      · simp only [Bool.or_eq_true]
        rw [if_neg hb]
        exact hacc3

/-- A fold preserves any invariant its step preserves. -/
theorem foldl_preserve {α β : Type} (P : β → Prop) (f : β → α → β)
    (hf : ∀ acc a, P acc → P (f acc a)) :
    ∀ (l : List α) (i : β), P i → P (l.foldl f i) := by
  intro l
  induction l with
  | nil => intro i hi; exact hi
  | cons a t ih => intro i hi; exact ih _ (hf i a hi)

/-- The impact aggregation satisfies the nonnegativity invariant. -/
theorem compute_impact_nonneg (original_routes : List Route)
    (new_map : List (Nat × Route)) (affected : List Nat) :
    acc_nonneg (compute_impact original_routes new_map affected) :=
  foldl_preserve acc_nonneg (impact_step original_routes new_map)
    (impact_step_nonneg original_routes new_map) affected init_acc
    ⟨le_refl 0, le_refl 0, le_refl 0, le_refl 0, le_refl 0, le_refl 0⟩

/-- C6: in the ImpactStatistics returned by every recalculate call, the
total and maximum distance, time and CO2 increases are always nonnegative;
a per-route delta enters the totals and maxima only when nonnegative, so
negative deltas are excluded rather than subtracted. -/
theorem c6_nonnegative_aggregates (pf : PathFinder) (g : Graph) (st : ServiceState)
    (pairs : List NodePair) (es : List Edge) :
    0 ≤ (recalculate pf g st pairs es).1.impact_statistics.total_distance_increase_km ∧
    0 ≤ (recalculate pf g st pairs es).1.impact_statistics.total_time_increase_minutes ∧
    0 ≤ (recalculate pf g st pairs es).1.impact_statistics.total_co2_increase_grams ∧
    0 ≤ (recalculate pf g st pairs es).1.impact_statistics.max_distance_increase_km ∧
    0 ≤ (recalculate pf g st pairs es).1.impact_statistics.max_time_increase_minutes ∧
    0 ≤ (recalculate pf g st pairs es).1.impact_statistics.max_co2_increase_grams := by
  rw [recalculate_impact_def]
  obtain ⟨h1, h2, h3, h4, h5, h6⟩ := compute_impact_nonneg
    (get_or_compute pf g st pairs).1
    ((find_affected_routes (get_or_compute pf g st pairs).1
        (es.map fun e => (e.u, e.v))).zip
      (calculate_routes pf (apply_removals g es).1
        ((find_affected_routes (get_or_compute pf g st pairs).1
            (es.map fun e => (e.u, e.v))).map
          (fun i => pairs.getD i default_pair))))
    (find_affected_routes (get_or_compute pf g st pairs).1
      (es.map fun e => (e.u, e.v)))
  unfold mk_impact_stats
  exact ⟨div_nonneg h1 (by norm_num), div_nonneg h2 (by norm_num), h3,
    div_nonneg h4 (by norm_num), div_nonneg h5 (by norm_num), h6⟩

/-- C7: if zero baseline routes are affected by the supplied modifications,
every average, maximum and total field of the returned ImpactStatistics
equals 0 and affected_routes is 0; and more generally, in every recalculate
call, each percentage-average field is 0 whenever its underlying percent
sample is empty, and each per-affected-route average field is 0 whenever
the affected count is 0, so no division by an empty sample ever occurs. -/
theorem c7_zero_affected_zero_stats (pf : PathFinder) (g : Graph) (st : ServiceState)
    (pairs : List NodePair) (es : List Edge) :
    (find_affected_routes (get_or_compute pf g st pairs).1
        (es.map fun e => (e.u, e.v)) = [] →
      (recalculate pf g st pairs es).1.impact_statistics.affected_routes = 0 ∧
      (recalculate pf g st pairs es).1.impact_statistics.total_distance_increase_km = 0 ∧
      (recalculate pf g st pairs es).1.impact_statistics.total_time_increase_minutes = 0 ∧
      (recalculate pf g st pairs es).1.impact_statistics.total_co2_increase_grams = 0 ∧
      (recalculate pf g st pairs es).1.impact_statistics.avg_distance_increase_km = 0 ∧
      (recalculate pf g st pairs es).1.impact_statistics.avg_time_increase_minutes = 0 ∧
      (recalculate pf g st pairs es).1.impact_statistics.avg_co2_increase_grams = 0 ∧
      (recalculate pf g st pairs es).1.impact_statistics.max_distance_increase_km = 0 ∧
      (recalculate pf g st pairs es).1.impact_statistics.max_time_increase_minutes = 0 ∧
      (recalculate pf g st pairs es).1.impact_statistics.max_co2_increase_grams = 0 ∧
      (recalculate pf g st pairs es).1.impact_statistics.avg_distance_increase_percent = 0 ∧
      (recalculate pf g st pairs es).1.impact_statistics.avg_time_increase_percent = 0 ∧
      (recalculate pf g st pairs es).1.impact_statistics.avg_co2_increase_percent = 0) ∧
    ((compute_impact (get_or_compute pf g st pairs).1
        ((find_affected_routes (get_or_compute pf g st pairs).1
            (es.map fun e => (e.u, e.v))).zip
          (calculate_routes pf (apply_removals g es).1
            ((find_affected_routes (get_or_compute pf g st pairs).1
                (es.map fun e => (e.u, e.v))).map
              (fun i => pairs.getD i default_pair))))
        (find_affected_routes (get_or_compute pf g st pairs).1
          (es.map fun e => (e.u, e.v)))).dist_pcts = [] →
      (recalculate pf g st pairs es).1.impact_statistics.avg_distance_increase_percent = 0) ∧
    ((compute_impact (get_or_compute pf g st pairs).1
        ((find_affected_routes (get_or_compute pf g st pairs).1
            (es.map fun e => (e.u, e.v))).zip
          (calculate_routes pf (apply_removals g es).1
            ((find_affected_routes (get_or_compute pf g st pairs).1
                (es.map fun e => (e.u, e.v))).map
              (fun i => pairs.getD i default_pair))))
        (find_affected_routes (get_or_compute pf g st pairs).1
          (es.map fun e => (e.u, e.v)))).time_pcts = [] →
      (recalculate pf g st pairs es).1.impact_statistics.avg_time_increase_percent = 0) ∧
    ((compute_impact (get_or_compute pf g st pairs).1
        ((find_affected_routes (get_or_compute pf g st pairs).1
            (es.map fun e => (e.u, e.v))).zip
          (calculate_routes pf (apply_removals g es).1
            ((find_affected_routes (get_or_compute pf g st pairs).1
                (es.map fun e => (e.u, e.v))).map
              (fun i => pairs.getD i default_pair))))
        (find_affected_routes (get_or_compute pf g st pairs).1
          (es.map fun e => (e.u, e.v)))).co2_pcts = [] →
      (recalculate pf g st pairs es).1.impact_statistics.avg_co2_increase_percent = 0) ∧
    ((compute_impact (get_or_compute pf g st pairs).1
        ((find_affected_routes (get_or_compute pf g st pairs).1
            (es.map fun e => (e.u, e.v))).zip
          (calculate_routes pf (apply_removals g es).1
            ((find_affected_routes (get_or_compute pf g st pairs).1
                (es.map fun e => (e.u, e.v))).map
              (fun i => pairs.getD i default_pair))))
        (find_affected_routes (get_or_compute pf g st pairs).1
          (es.map fun e => (e.u, e.v)))).affected = 0 →
      (recalculate pf g st pairs es).1.impact_statistics.avg_distance_increase_km = 0 ∧
      (recalculate pf g st pairs es).1.impact_statistics.avg_time_increase_minutes = 0 ∧
      (recalculate pf g st pairs es).1.impact_statistics.avg_co2_increase_grams = 0) := by
  refine ⟨?_, ?_, ?_, ?_, ?_⟩
  · intro h
    simp only [recalculate_impact_def, h]
    simp [compute_impact, mk_impact_stats, init_acc, avg_list]
  · intro hp
    simp only [recalculate_impact_def, mk_impact_stats, hp]
    simp [avg_list]
  · intro hp
    simp only [recalculate_impact_def, mk_impact_stats, hp]
    simp [avg_list]
  · intro hp
    simp only [recalculate_impact_def, mk_impact_stats, hp]
    simp [avg_list]
  · intro hp
    simp only [recalculate_impact_def, mk_impact_stats, hp]
    simp

/-- Witness for C7: removing no edge affects no route, every impact field
of the concrete run is zero, and all the empty-sample guards fire. -/
theorem c7_zero_affected_zero_stats_witness :
    (     (recalculate pf_single g_empty st_init [⟨1, 2⟩] []).1.impact_statistics.affected_routes = 0 ∧
     (recalculate pf_single g_empty st_init [⟨1, 2⟩] []).1.impact_statistics.total_distance_increase_km = 0 ∧
     (recalculate pf_single g_empty st_init [⟨1, 2⟩] []).1.impact_statistics.total_time_increase_minutes = 0 ∧
     (recalculate pf_single g_empty st_init [⟨1, 2⟩] []).1.impact_statistics.total_co2_increase_grams = 0 ∧
     (recalculate pf_single g_empty st_init [⟨1, 2⟩] []).1.impact_statistics.avg_distance_increase_km = 0 ∧
     (recalculate pf_single g_empty st_init [⟨1, 2⟩] []).1.impact_statistics.avg_time_increase_minutes = 0 ∧
     (recalculate pf_single g_empty st_init [⟨1, 2⟩] []).1.impact_statistics.avg_co2_increase_grams = 0 ∧
     (recalculate pf_single g_empty st_init [⟨1, 2⟩] []).1.impact_statistics.max_distance_increase_km = 0 ∧
     (recalculate pf_single g_empty st_init [⟨1, 2⟩] []).1.impact_statistics.max_time_increase_minutes = 0 ∧
     (recalculate pf_single g_empty st_init [⟨1, 2⟩] []).1.impact_statistics.max_co2_increase_grams = 0 ∧
     (recalculate pf_single g_empty st_init [⟨1, 2⟩] []).1.impact_statistics.avg_distance_increase_percent = 0 ∧
     (recalculate pf_single g_empty st_init [⟨1, 2⟩] []).1.impact_statistics.avg_time_increase_percent = 0 ∧
     (recalculate pf_single g_empty st_init [⟨1, 2⟩] []).1.impact_statistics.avg_co2_increase_percent = 0) ∧
    (recalculate pf_single g_empty st_init [⟨1, 2⟩] []).1.impact_statistics.avg_distance_increase_percent = 0 ∧
    (recalculate pf_single g_empty st_init [⟨1, 2⟩] []).1.impact_statistics.avg_time_increase_percent = 0 ∧
    (recalculate pf_single g_empty st_init [⟨1, 2⟩] []).1.impact_statistics.avg_co2_increase_percent = 0 ∧
    ((recalculate pf_single g_empty st_init [⟨1, 2⟩] []).1.impact_statistics.avg_distance_increase_km = 0 ∧
     (recalculate pf_single g_empty st_init [⟨1, 2⟩] []).1.impact_statistics.avg_time_increase_minutes = 0 ∧
     (recalculate pf_single g_empty st_init [⟨1, 2⟩] []).1.impact_statistics.avg_co2_increase_grams = 0) := by
  have hthm := c7_zero_affected_zero_stats pf_single g_empty st_init [⟨1, 2⟩] []
  exact ⟨hthm.1 (by decide), hthm.2.1 (by decide), hthm.2.2.1 (by decide),
    hthm.2.2.2.1 (by decide), hthm.2.2.2.2 (by decide)⟩

/-- Membership in the consecutive-pair list is exactly adjacency in the
path. -/
theorem mem_consecPairs (l : List Int) (u v : Int) :
    (u, v) ∈ consecPairs l ↔ ∃ j, l[j]? = some u ∧ l[j + 1]? = some v := by
  induction l with
  | nil =>
    simp [consecPairs]
  | cons a t ih =>
    cases t with
    | nil =>
      simp only [consecPairs, List.not_mem_nil, false_iff, not_exists, not_and]
      intro j h1 h2
      cases j with
      | zero => simp at h2
      | succ k => simp at h1
    | cons b t2 =>
      rw [consecPairs]
      simp only [List.mem_cons, ih, Prod.mk.injEq]
      constructor
      · rintro (⟨rfl, rfl⟩ | ⟨j, h1, h2⟩)
        · exact ⟨0, by simp, by simp⟩
        · exact ⟨j + 1, by simpa using h1, by simpa using h2⟩
      · rintro ⟨j, h1, h2⟩
        cases j with
        | zero =>
          left
          simp at h1 h2
          exact ⟨h1.symm, h2.symm⟩
        | succ k =>
          right
          exact ⟨k, by simpa using h1, by simpa using h2⟩

/-- A path touches the modified-edge set exactly when some consecutive node
pair of it is a modified edge key. -/
theorem route_touches_iff (m : List (Int × Int)) (path : List Int) :
    route_touches m path = true ↔
      ∃ j u v, path[j]? = some u ∧ path[j + 1]? = some v ∧ (u, v) ∈ m := by
  simp only [route_touches, List.any_eq_true, decide_eq_true_eq]
  constructor
  · rintro ⟨⟨u, v⟩, hmem, hin⟩
    obtain ⟨j, h1, h2⟩ := (mem_consecPairs path u v).1 hmem
    exact ⟨j, u, v, h1, h2, hin⟩
  · rintro ⟨j, u, v, h1, h2, hin⟩
    exact ⟨(u, v), (mem_consecPairs path u v).2 ⟨j, h1, h2⟩, hin⟩

/-- Characterization of the index scan: an index is collected exactly when
it points, relative to the start offset, at a route whose path touches the
modified set. -/
theorem mem_find_affected_from (m : List (Int × Int)) (l : List Route) :
    ∀ (i0 j : Nat), j ∈ find_affected_from m i0 l ↔
      ∃ k r, l[k]? = some r ∧ j = i0 + k ∧ route_touches m r.path = true := by
  induction l with
  | nil =>
    intro i0 j
    simp [find_affected_from]
  | cons r0 rest ih =>
    intro i0 j
    rw [find_affected_from]
    by_cases h : route_touches m r0.path
    · rw [if_pos h]
      simp only [List.mem_cons, ih]
      constructor
      · rintro (rfl | ⟨k, r, hk, rfl, ht⟩)
        · exact ⟨0, r0, by simp, by omega, h⟩
        · exact ⟨k + 1, r, by simpa using hk, by omega, ht⟩
      · rintro ⟨k, r, hk, rfl, ht⟩
        cases k with
        | zero => left; omega
        | succ k2 =>
          right
          exact ⟨k2, r, by simpa using hk, by omega, ht⟩
    · rw [if_neg h]
      rw [ih]
      constructor
      · rintro ⟨k, r, hk, rfl, ht⟩
        exact ⟨k + 1, r, by simpa using hk, by omega, ht⟩
      · rintro ⟨k, r, hk, rfl, ht⟩
        cases k with
        | zero =>
          simp only [List.getElem?_cons_zero, Option.some.injEq] at hk
          subst hk
          exact absurd ht h
        | succ k2 =>
          exact ⟨k2, r, by simpa using hk, by omega, ht⟩

/-- C3: a baseline route is placed in the affected set exactly when some
consecutive node pair of its path belongs to the modified edge key set: in
particular every route traversing a modified edge is in the set and every
route touching no modified edge is not. -/
theorem c3_affected_iff_touches (routes : List Route) (m : List (Int × Int)) (i : Nat) :
    i ∈ find_affected_routes routes m ↔
      ∃ r, routes[i]? = some r ∧
        ∃ j u v, r.path[j]? = some u ∧ r.path[j + 1]? = some v ∧ (u, v) ∈ m := by
  rw [find_affected_routes, mem_find_affected_from]
  constructor
  · rintro ⟨k, r, hk, rfl, ht⟩
    exact ⟨r, by simpa using hk, (route_touches_iff m r.path).1 ht⟩
  · rintro ⟨r, hr, hadj⟩
    exact ⟨i, r, hr, by omega, (route_touches_iff m r.path).2 hadj⟩

/-- Positional updates at indices all different from `j` leave position `j`
unchanged. -/
theorem apply_route_updates_not_mem (updates : List (Nat × Route)) :
    ∀ (routes : List Route) (j : Nat), (∀ p ∈ updates, p.1 ≠ j) →
      (apply_route_updates routes updates)[j]? = routes[j]? := by
  induction updates with
  | nil => intro routes j _; rfl
  | cons p rest ih =>
    intro routes j h
    have hrest : ∀ q ∈ rest, q.1 ≠ j := fun q hq => h q (List.mem_cons_of_mem _ hq)
    have hp : p.1 ≠ j := h p (List.mem_cons_self _ _)
    show (apply_route_updates (routes.set p.1 p.2) rest)[j]? = routes[j]?
    rw [ih _ j hrest, List.getElem?_set_ne hp]

/-- C2: for every baseline route whose path does not contain any modified
edge as a consecutive node pair, the route returned by recalculate at that
route position is identical to the baseline route, path and metrics
included: unaffected routes are never recomputed or altered. -/
theorem c2_unaffected_identical (pf : PathFinder) (g : Graph) (st : ServiceState)
    (pairs : List NodePair) (es : List Edge) (i : Nat) (r : Route)
    (hr : (get_or_compute pf g st pairs).1[i]? = some r)
    (ht : route_touches (es.map fun e => (e.u, e.v)) r.path = false) :
    (recalculate pf g st pairs es).1.routes[i]? = some r := by
  rw [recalculate_routes_def]
  rw [apply_route_updates_not_mem]
  · exact hr
  · rintro ⟨k, nr⟩ hmem heq
    simp only at heq
    subst heq
    have hk := (List.of_mem_zip hmem).1
    rw [find_affected_routes, mem_find_affected_from] at hk
    obtain ⟨k2, r2, hk2, hsum, htouch⟩ := hk
    have hkk : k2 = k := by omega
    subst hkk
    rw [hr] at hk2
    cases hk2
    rw [htouch] at ht
    exact Bool.true_eq_false ▸ ht

/-- Witness for C2: with one cached pair and a removal elsewhere in the
network, the returned route at position 0 is the untouched baseline route. -/
theorem c2_unaffected_identical_witness :
    (recalculate pf_single g_empty st_init [⟨1, 2⟩] [⟨7, 8⟩]).1.routes[0]? =
      some { origin := 1, destination := 2, path := [1, 2], travel_time := some 0,
             distance := some 0, elevation_gain := none, co2_emissions := some 0 } :=
  c2_unaffected_identical pf_single g_empty st_init [⟨1, 2⟩] [⟨7, 8⟩] 0
    { origin := 1, destination := 2, path := [1, 2], travel_time := some 0,
      distance := some 0, elevation_gain := none, co2_emissions := some 0 }
    (by decide) (by decide)

/-- The frequency field of every produced usage stat is its count over the
supplied total, 0 for a zero total. -/
theorem mem_usage_stats_frequency (g : Graph) (routes : List Route) (total : Nat)
    (os : Option OrigStats) (s : EdgeUsageStats)
    (hs : s ∈ calculate_edge_usage_stats g routes total os) :
    s.frequency = if 0 < total then (s.count : ℚ) / (total : ℚ) else 0 := by
  unfold calculate_edge_usage_stats at hs
  rw [List.mem_insertionSort] at hs
  obtain ⟨kc, hkc, rfl⟩ := List.mem_map.1 hs
  rfl

/-- C5 counterexample: a supplied but empty prior baseline leaves every
delta field null, although the edge (1, 2) is present in the new usage set
with count 1. -/
theorem c5_counterexample :
    (calculate_edge_usage_stats g_empty [r12] 1 (some [])).map (fun s => s.delta_count) =
      [none] ∧
    (calculate_edge_usage_stats g_empty [r12] 1 (some [])).map (fun s => s.count) = [1] := by
  decide

/-- C5 amended: whenever a nonempty prior usage baseline is supplied to the
edge-usage computation, every EdgeUsageStats in the output has populated
delta_count and delta_frequency, equal to count and frequency minus the
prior values, which are taken as 0 for an edge absent from the prior
baseline. -/
theorem c5_deltas_populated_amended (g : Graph) (routes : List Route) (total : Nat)
    (os : OrigStats) (s : EdgeUsageStats) (hos : os ≠ [])
    (hs : s ∈ calculate_edge_usage_stats g routes total (some os)) :
    s.delta_count =
      some ((s.count : Int) - (os.lookup (s.u, s.v)).elim 0 (fun p => (p.1 : Int))) ∧
    s.delta_frequency =
      some (s.frequency - (os.lookup (s.u, s.v)).elim 0 (fun p => p.2)) := by
  unfold calculate_edge_usage_stats at hs
  rw [List.mem_insertionSort] at hs
  obtain ⟨kc, hkc, rfl⟩ := List.mem_map.1 hs
  obtain ⟨⟨u, v⟩, c⟩ := kc
  have hne : os.isEmpty = false := by
    cases os
    · exact absurd rfl hos
    · rfl
  cases hl : os.lookup (u, v) with
  | none => simp [usage_stat_deltas, hne, hl]
  | some p =>
    obtain ⟨oc, ofr⟩ := p
    simp [usage_stat_deltas, hne, hl]

/-- Witness for C5 amended: against the nonempty baseline `os_fix`, the
stat for the new edge (1, 2) carries delta_count 1 and delta_frequency 1. -/
theorem c5_deltas_populated_amended_witness :
    stat_fix.delta_count =
      some ((stat_fix.count : Int) -
        (os_fix.lookup (stat_fix.u, stat_fix.v)).elim 0 (fun p => (p.1 : Int))) ∧
    stat_fix.delta_frequency =
      some (stat_fix.frequency -
        (os_fix.lookup (stat_fix.u, stat_fix.v)).elim 0 (fun p => p.2)) :=
  c5_deltas_populated_amended g_empty [r12] 1 os_fix stat_fix (by decide) (by decide)

/-- C9 counterexample: with two requested pairs of which one has no route,
the usage frequency of the edge (1, 2) is 1/2, not its count divided by the
size of the route set it was computed over (1 route). -/
theorem c9_counterexample :
    ∃ s ∈ (recalculate pf_single g_empty st_init [⟨3, 4⟩, ⟨1, 2⟩] []).1.original_edge_usage,
      s.frequency ≠ (s.count : ℚ) /
        (((recalculate pf_single g_empty st_init [⟨3, 4⟩, ⟨1, 2⟩] []).1.routes.length : ℚ)) := by
  decide

/-- C9 amended: in each edge-usage list produced by recalculate, every edge
frequency equals its count divided by the number of requested OD pairs (0
when no pairs were requested); this equals the fraction of the underlying
route set only when every pair produced a route. -/
theorem c9_frequency_amended (pf : PathFinder) (g : Graph) (st : ServiceState)
    (pairs : List NodePair) (es : List Edge) (s : EdgeUsageStats)
    (h : s ∈ (recalculate pf g st pairs es).1.original_edge_usage ∨
         s ∈ (recalculate pf g st pairs es).1.new_edge_usage) :
    s.frequency = if 0 < pairs.length then (s.count : ℚ) / (pairs.length : ℚ) else 0 := by
  cases h with
  | inl h =>
    rw [recalculate_orig_usage_def] at h
    exact mem_usage_stats_frequency _ _ _ _ _ h
  | inr h =>
    rw [recalculate_new_usage_def] at h
    exact mem_usage_stats_frequency _ _ _ _ _ h

/-- Witness for C9 amended: the stat for the edge (1, 2) of the concrete
run has frequency 1/2 = 1 count over 2 requested pairs. -/
theorem c9_frequency_amended_witness :
    stat_half.frequency =
      if 0 < ([⟨3, 4⟩, ⟨1, 2⟩] : List NodePair).length then
        (stat_half.count : ℚ) / (([⟨3, 4⟩, ⟨1, 2⟩] : List NodePair).length : ℚ)
      else 0 :=
  c9_frequency_amended pf_single g_empty st_init [⟨3, 4⟩, ⟨1, 2⟩] [] stat_half
    (Or.inl (by decide))

/-- When the selector succeeds on every element, filterMap is the map of
the extracted values. -/
theorem filterMap_eq_map_of_isSome {α β : Type} (f : α → Option β) (d : β) :
    ∀ (l : List α), (∀ a ∈ l, (f a).isSome) →
      l.filterMap f = l.map (fun a => (f a).getD d) := by
  intro l
  induction l with
  | nil => intro _; rfl
  | cons a t ih =>
    intro h
    obtain ⟨b, hb⟩ := Option.isSome_iff_exists.1 (h a (List.mem_cons_self _ _))
    rw [List.filterMap_cons, List.map_cons, hb,
      ih (fun x hx => h x (List.mem_cons_of_mem _ hx))]
    rfl

/-- Every collected affected index points into the baseline route list. -/
theorem find_affected_routes_lt (routes : List Route) (m : List (Int × Int))
    (j : Nat) (h : j ∈ find_affected_routes routes m) : j < routes.length := by
  rw [find_affected_routes, mem_find_affected_from] at h
  obtain ⟨k, r, hk, rfl, _⟩ := h
  obtain ⟨hlt, _⟩ := List.getElem?_eq_some.1 hk
  omega

/-- Every index collected from offset `i0` is at least `i0`. -/
theorem find_affected_from_ge (m : List (Int × Int)) (l : List Route)
    (i0 j : Nat) (h : j ∈ find_affected_from m i0 l) : i0 ≤ j := by
  rw [mem_find_affected_from] at h
  obtain ⟨k, r, _, rfl, _⟩ := h
  omega

/-- The collected affected indices are pairwise distinct. -/
theorem find_affected_from_nodup (m : List (Int × Int)) :
    ∀ (l : List Route) (i0 : Nat), (find_affected_from m i0 l).Nodup := by
  intro l
  induction l with
  | nil => intro i0; simp [find_affected_from]
  | cons r rest ih =>
    intro i0
    rw [find_affected_from]
    by_cases h : route_touches m r.path
    · rw [if_pos h]
      refine List.nodup_cons.2 ⟨?_, ih (i0 + 1)⟩
      intro hmem
      have := find_affected_from_ge m rest (i0 + 1) i0 hmem
      omega
    · rw [if_neg h]
      exact ih (i0 + 1)

/-- Positional updates with pairwise distinct keys place each update at its
index. -/
theorem apply_route_updates_mem (updates : List (Nat × Route)) :
    ∀ (routes : List Route) (i : Nat) (r : Route),
      (updates.map Prod.fst).Nodup → (i, r) ∈ updates → i < routes.length →
      (apply_route_updates routes updates)[i]? = some r := by
  induction updates with
  | nil => intro routes i r _ h _; exact absurd h (List.not_mem_nil _)
  | cons p rest ih =>
    intro routes i r hnd hmem hlen
    rw [List.map_cons, List.nodup_cons] at hnd
    rcases List.mem_cons.1 hmem with heq | hmem2
    · cases heq.symm
      show (apply_route_updates (routes.set i r) rest)[i]? = some r
      rw [apply_route_updates_not_mem]
      · exact List.getElem?_set_self hlen
      · intro q hq heq2
        apply hnd.1
        rw [← heq2]
        exact List.mem_map.2 ⟨q, hq, rfl⟩
    · show (apply_route_updates (routes.set p.1 p.2) rest)[i]? = some r
      exact ih _ i r hnd.2 hmem2 (by simpa using hlen)

/-- Positional updates preserve the list length. -/
theorem apply_route_updates_length (updates : List (Nat × Route)) :
    ∀ routes, (apply_route_updates routes updates).length = routes.length := by
  induction updates with
  | nil => intro _; rfl
  | cons p rest ih =>
    intro routes
    show (apply_route_updates (routes.set p.1 p.2) rest).length = _
    rw [ih, List.length_set]

/-- When the supplied key has no cache entry, the baseline routes are
computed fresh. -/
theorem get_or_compute_of_lookup_none (pf : PathFinder) (g : Graph) (st : ServiceState)
    (pairs : List NodePair)
    (h : st.route_cache.lookup (pairs_key_of pairs) = none) :
    (get_or_compute pf g st pairs).1 = calculate_routes pf g pairs := by
  unfold get_or_compute
  by_cases hc : st.pairs_cache = some (pairs_key_of pairs)
  · rw [if_pos hc, h]
  · rw [if_neg hc]

/-- Zipping a list with its own image pairs each element with its image. -/
theorem zip_map_self {α β : Type} (f : α → β) (l : List α) :
    l.zip (l.map f) = l.map (fun a => (a, f a)) := by
  have := List.zip_map' id f l
  simpa using this

/-- A pair on which the oracle succeeds yields a route. -/
theorem route_for_isSome (pf : PathFinder) (gx : Graph) (p : NodePair)
    (h : (pf gx p).isSome) : (route_for pf gx p).isSome := by
  unfold route_for
  cases hpf : pf gx p with
  | none => rw [hpf] at h; simp at h
  | some path => rfl

/-- When the oracle succeeds on every requested pair, the computed route
list is the pointwise route of each pair. -/
theorem calculate_routes_eq_map (pf : PathFinder) (gx : Graph) (ps : List NodePair)
    (h : ∀ p ∈ ps, (pf gx p).isSome) :
    calculate_routes pf gx ps =
      ps.map (fun p => (route_for pf gx p).getD default_route) := by
  unfold calculate_routes
  exact filterMap_eq_map_of_isSome _ _ ps
    (fun p hp => route_for_isSome pf gx p (h p hp))

/-- Alignment of the selective-recompute merge: when the oracle succeeds on
every pair against both graphs, the merged list is positionally aligned
with the pair sequence, holding the recomputed route at affected indices
and the baseline route elsewhere. -/
theorem merge_aligned_general (pf : PathFinder) (g g2 : Graph) (pairs : List NodePair)
    (m : List (Int × Int))
    (h1 : ∀ p ∈ pairs, (pf g p).isSome)
    (h2 : ∀ p ∈ pairs, (pf g2 p).isSome) :
    (apply_route_updates (calculate_routes pf g pairs)
        ((find_affected_routes (calculate_routes pf g pairs) m).zip
          (calculate_routes pf g2
            ((find_affected_routes (calculate_routes pf g pairs) m).map
              (fun i => pairs.getD i default_pair))))).map some =
      (List.range pairs.length).map (fun j =>
        if j ∈ find_affected_routes (calculate_routes pf g pairs) m
        then route_for pf g2 (pairs.getD j default_pair)
        else route_for pf g (pairs.getD j default_pair)) := by
  have hBmap := calculate_routes_eq_map pf g pairs h1
  have hBlen : (calculate_routes pf g pairs).length = pairs.length := by
    rw [hBmap, List.length_map]
  have hgetD : ∀ i, i < pairs.length → pairs.getD i default_pair ∈ pairs := by
    intro i hi
    rw [List.getD_eq_getElem?_getD, List.getElem?_eq_getElem hi, Option.getD_some]
    exact List.getElem_mem hi
  have hNR : calculate_routes pf g2
      ((find_affected_routes (calculate_routes pf g pairs) m).map
        (fun i => pairs.getD i default_pair)) =
      (find_affected_routes (calculate_routes pf g pairs) m).map
        (fun i => (route_for pf g2 (pairs.getD i default_pair)).getD default_route) := by
    rw [calculate_routes_eq_map pf g2 _ ?hall, List.map_map]
    · rfl
    case hall =>
      intro q hq
      obtain ⟨i, hi, rfl⟩ := List.mem_map.1 hq
      have hilt : i < pairs.length := hBlen ▸ find_affected_routes_lt _ m i hi
      exact h2 _ (hgetD i hilt)
  have hzip : (find_affected_routes (calculate_routes pf g pairs) m).zip
      (calculate_routes pf g2
        ((find_affected_routes (calculate_routes pf g pairs) m).map
          (fun i => pairs.getD i default_pair))) =
      (find_affected_routes (calculate_routes pf g pairs) m).map
        (fun i => (i, (route_for pf g2 (pairs.getD i default_pair)).getD default_route)) := by
    rw [hNR, zip_map_self]
  rw [hzip]
  apply List.ext_getElem?
  intro n
  rw [List.getElem?_map, List.getElem?_map]
  by_cases hn : n < pairs.length
  · rw [List.getElem?_range hn, Option.map_some']
    by_cases hmem : n ∈ find_affected_routes (calculate_routes pf g pairs) m
    · rw [if_pos hmem]
      have hknd : (((find_affected_routes (calculate_routes pf g pairs) m).map
          (fun i => (i, (route_for pf g2 (pairs.getD i default_pair)).getD
            default_route))).map Prod.fst).Nodup := by
        rw [List.map_map,
          show (Prod.fst ∘ fun i =>
            (i, (route_for pf g2 (pairs.getD i default_pair)).getD default_route)) = id
          from rfl, List.map_id]
        exact find_affected_from_nodup m (calculate_routes pf g pairs) 0
      have hkmem : (n, (route_for pf g2 (pairs.getD n default_pair)).getD default_route) ∈
          (find_affected_routes (calculate_routes pf g pairs) m).map
            (fun i => (i, (route_for pf g2 (pairs.getD i default_pair)).getD
              default_route)) :=
        List.mem_map_of_mem _ hmem
      have hupd := apply_route_updates_mem _ (calculate_routes pf g pairs) n _ hknd hkmem
        (by rw [hBlen]; exact hn)
      rw [hupd, Option.map_some']
      obtain ⟨x, hx⟩ := Option.isSome_iff_exists.1
        (route_for_isSome pf g2 _ (h2 _ (hgetD n hn)))
      rw [hx, Option.getD_some]
    · rw [if_neg hmem]
      have hkeys : ∀ q ∈ (find_affected_routes (calculate_routes pf g pairs) m).map
          (fun i => (i, (route_for pf g2 (pairs.getD i default_pair)).getD
            default_route)), q.1 ≠ n := by
        intro q hq heq
        obtain ⟨i, hi, rfl⟩ := List.mem_map.1 hq
        have heq2 : i = n := heq
        exact hmem (heq2 ▸ hi)
      rw [apply_route_updates_not_mem _ (calculate_routes pf g pairs) n hkeys]
      rw [hBmap, List.getElem?_map, List.getElem?_eq_getElem hn, Option.map_some',
        Option.map_some']
      rw [List.getD_eq_getElem?_getD, List.getElem?_eq_getElem hn, Option.getD_some]
      obtain ⟨x, hx⟩ := Option.isSome_iff_exists.1
        (route_for_isSome pf g _ (h1 _ (List.getElem_mem hn)))
      rw [hx, Option.getD_some]
  · have hge : pairs.length ≤ n := le_of_not_lt hn
    rw [List.getElem?_eq_none (by rw [apply_route_updates_length, hBlen]; omega),
      List.getElem?_eq_none (by rw [List.length_range]; omega)]
    rfl

/-- C1 counterexample: when one of two requested pairs has no path, the
returned routes list has length 1 while the input pair sequence has length
2, so it is not a complete list positionally aligned with the input pair
sequence. -/
theorem c1_counterexample :
    (recalculate pf_single g_empty st_init [⟨3, 4⟩, ⟨1, 2⟩] []).1.routes.length = 1 ∧
    ([⟨3, 4⟩, ⟨1, 2⟩] : List NodePair).length = 2 := by
  decide

/-- C1 amended: provided the baseline for the pair sequence is computed
fresh (no cache entry under its key) and the oracle finds a path for every
pair against the original network and against the modified network, the
returned routes list is complete and positionally aligned with the input
pair sequence: at every affected index it holds the route recomputed for
that same origin-destination pair against the modified graph, and at every
other index it holds the baseline route of that pair. -/
theorem c1_merge_aligned_amended (pf : PathFinder) (g : Graph) (st : ServiceState)
    (pairs : List NodePair) (es : List Edge)
    (h0 : st.route_cache.lookup (pairs_key_of pairs) = none)
    (h1 : ∀ p ∈ pairs, (pf g p).isSome)
    (h2 : ∀ p ∈ pairs, (pf (apply_removals g es).1 p).isSome) :
    (recalculate pf g st pairs es).1.routes.map some =
      (List.range pairs.length).map (fun j =>
        if j ∈ find_affected_routes (calculate_routes pf g pairs)
            (es.map fun e => (e.u, e.v))
        then route_for pf (apply_removals g es).1 (pairs.getD j default_pair)
        else route_for pf g (pairs.getD j default_pair)) := by
  have hbase := get_or_compute_of_lookup_none pf g st pairs h0
  rw [recalculate_routes_def, hbase]
  exact merge_aligned_general pf g (apply_removals g es).1 pairs
    (es.map fun e => (e.u, e.v)) h1 h2

/-- Witness for C1 amended at the concrete scenario-A input: the pair
(1, 3) is affected by removing the edge (2, 3) and position 0 holds the
route recomputed on the modified network. -/
theorem c1_merge_aligned_amended_witness :
    (recalculate pf_tri g_tri st_init [⟨1, 3⟩] [⟨2, 3⟩]).1.routes.map some =
      (List.range ([⟨1, 3⟩] : List NodePair).length).map (fun j =>
        if j ∈ find_affected_routes (calculate_routes pf_tri g_tri [⟨1, 3⟩])
            (([⟨2, 3⟩] : List Edge).map fun e => (e.u, e.v))
        then route_for pf_tri (apply_removals g_tri [⟨2, 3⟩]).1
          (([⟨1, 3⟩] : List NodePair).getD j default_pair)
        else route_for pf_tri g_tri (([⟨1, 3⟩] : List NodePair).getD j default_pair)) :=
  c1_merge_aligned_amended pf_tri g_tri st_init [⟨1, 3⟩] [⟨2, 3⟩]
    (by decide) (by decide) (by decide)
